import Mathlib

/-!
Verification of the cocoon recommendation backend's core logic.

Shallow embedding conventions:
* calendar dates are represented by integer day ordinals (`ℤ`); adding `n`
  days to a date is integer addition, and `end - start` is the day count,
  matching Python `date`/`timedelta` arithmetic;
* Python floats are modelled as rationals (`ℚ`);
* nullable / optional Python values are `Option`;
* the external XGBoost model object is an abstract function
  `List ℚ → ℚ` from the encoded feature row to the predicted price.
-/

set_option autoImplicit false

namespace Cocoon

/-! ### src/services/rule_engine.py -/

/-- Optimal temperature lower bound (`OPTIMAL_TEMP_MIN = 20`). -/
def OPTIMAL_TEMP_MIN : ℚ := 20

/-- Optimal temperature upper bound (`OPTIMAL_TEMP_MAX = 28`). -/
def OPTIMAL_TEMP_MAX : ℚ := 28

/-- Minimum rearing duration in days (`MIN_REARING_DURATION = 25`). -/
def MIN_REARING_DURATION : ℤ := 25

/-- Maximum rearing duration in days (`MAX_REARING_DURATION = 30`). -/
def MAX_REARING_DURATION : ℤ := 30

/-- Standard rearing duration in days (`OPTIMAL_REARING_DURATION = 28`). -/
def OPTIMAL_REARING_DURATION : ℤ := 28

/-- Embeds `rule_engine.apply_temperature_constraints`: delay the proposed start
date by 3 days when too cold, 2 days when too hot, otherwise keep it. -/
def apply_temperature_constraints (start_date : ℤ) (temperature : ℚ) : ℤ :=
  if temperature < OPTIMAL_TEMP_MIN then start_date + 3
  else if temperature > OPTIMAL_TEMP_MAX then start_date + 2
  else start_date

/-- Embeds `rule_engine.get_optimal_rearing_duration`: 30 days when cold,
25 days when hot, 28 days in the optimal band. -/
def get_optimal_rearing_duration (temperature : ℚ) : ℤ :=
  if temperature < OPTIMAL_TEMP_MIN then MAX_REARING_DURATION
  else if temperature > OPTIMAL_TEMP_MAX then MIN_REARING_DURATION
  else OPTIMAL_REARING_DURATION

/-- Embeds `rule_engine.validate_rearing_period`: the window is valid iff its
length in days lies in `[MIN_REARING_DURATION, MAX_REARING_DURATION]`. -/
def validate_rearing_period (start_date end_date : ℤ) : Bool :=
  let duration := end_date - start_date
  decide (MIN_REARING_DURATION ≤ duration) && decide (duration ≤ MAX_REARING_DURATION)

/-- Embeds `rule_engine.get_season_from_date`, keyed on the date's month field.
Note the hyphenated "Post-Monsoon" label, unlike the ML encoder's. -/
def get_season_from_date (month : ℕ) : String :=
  if month = 12 ∨ month = 1 ∨ month = 2 then "Winter"
  else if month = 3 ∨ month = 4 ∨ month = 5 then "Summer"
  else if month = 6 ∨ month = 7 ∨ month = 8 ∨ month = 9 then "Monsoon"
  else "Post-Monsoon"

/-- Embeds `rule_engine.is_favorable_season`: favorable iff not Monsoon. -/
def is_favorable_season (month : ℕ) : Bool :=
  decide (get_season_from_date month ≠ "Monsoon")

/-! ### src/utils/date_utils.py -/

/-- Embeds `date_utils.calculate_end_date`: start date plus duration in days. -/
def calculate_end_date (start_date : ℤ) (duration_days : ℤ) : ℤ :=
  start_date + duration_days

/-- Embeds `date_utils.days_between`: day count between two dates. -/
def days_between (start_d end_d : ℤ) : ℤ :=
  end_d - start_d

/-! ### src/services/ml_service.py : season derivation -/

/-- Embeds `ml_service.get_season`: the feature encoder's month-to-season mapping
(unhyphenated "PostMonsoon", matching the training data vocabulary). -/
def get_season (month : ℕ) : String :=
  if month = 12 ∨ month = 1 ∨ month = 2 then "Winter"
  else if month = 3 ∨ month = 4 ∨ month = 5 then "Summer"
  else if month = 6 ∨ month = 7 ∨ month = 8 ∨ month = 9 then "Monsoon"
  else "PostMonsoon"

/-! ### src/services/ml_service.py : the price oracle -/

/-- The dictionary returned by `MLService.predict_price` and
`MLService._fallback_response`: predicted price, confidence score, model
status string, and the optional "error" reason key. -/
structure PricePrediction where
  predicted_price : ℚ
  confidence_score : ℚ
  model_status : String
  error_reason : Option String
deriving DecidableEq, Repr

/-- The `MLService` instance state after `load_model`: the `model_loaded`
flag, the optional XGBoost model (an abstract function from the encoded
feature row, in `FEATURE_COLUMNS` order, to a price), and the optional
city / season label encoders, each given by its fitted class list. -/
structure MLState where
  model_loaded : Bool
  model : Option (List ℚ → ℚ)
  le_city : Option (List String)
  le_season : Option (List String)

/-- Embeds `sklearn.LabelEncoder.transform` on a single label: the index of the
label in the encoder's class list, or a raised `ValueError` (modelled as
`Except.error` with the sklearn message) on an unseen label. -/
def label_transform (classes : List String) (label : String) : Except String ℕ :=
  match classes with
  | [] => Except.error ("y contains previously unseen labels: " ++ label)
  | c :: cs =>
    if label = c then Except.ok 0
    else (label_transform cs label).map (· + 1)

/-- Embeds `MLService._fallback_response`: fixed 450.0 price, zero confidence,
"error" status and the failure reason. -/
def fallback_response (reason : String) : PricePrediction :=
  { predicted_price := 450
    confidence_score := 0
    model_status := "error"
    error_reason := some reason }

/-- The `rainfall_by_season` dictionary lookup in `predict_price`
(`dict.get(season, 50.0)`). -/
def rainfall_by_season (season : String) : ℚ :=
  if season = "Monsoon" then 150
  else if season = "PostMonsoon" then 80
  else if season = "Winter" then 20
  else if season = "Summer" then 40
  else 50

/-- Embeds `MLService.predict_price`. Here `current_month` stands for
`datetime.now().month`, used only when no explicit month is passed.
Optional arguments follow the Python keyword parameters `humidity`,
`max_temp`, `rainfall`, `month`. The broad `except` around the body is
reflected in the `label_transform` error branches: an unseen city or season
label raises inside `transform` and is converted to `_fallback_response`.
The model inference itself is an abstract total function, so the embedded
try-block has no further failure points. -/
def predict_price (st : MLState) (current_month : ℕ) (city : String)
    (temperature : ℚ) (humidity : Option ℚ) (max_temp : Option ℚ)
    (rainfall : Option ℚ) (month : Option ℕ) : PricePrediction :=
  match st.model_loaded, st.model with
  | true, some model =>
    let m := month.getD current_month
    let season := get_season m
    let humidity := humidity.getD 65
    let max_temp := max_temp.getD (temperature + 4)
    let rainfall := rainfall.getD (rainfall_by_season season)
    match st.le_city with
    | none => fallback_response "city_encoder_missing"
    | some city_classes =>
      match st.le_season with
      | none => fallback_response "season_encoder_missing"
      | some season_classes =>
        match label_transform city_classes city with
        | Except.error e => fallback_response e
        | Except.ok city_code =>
          match label_transform season_classes season with
          | Except.error e => fallback_response e
          | Except.ok season_code =>
            { predicted_price :=
                model [city_code, m, season_code, temperature, max_temp, humidity, rainfall]
              confidence_score := 0.85
              model_status := "active"
              error_reason := none }
  | _, _ =>
    { predicted_price := 450
      confidence_score := 0
      model_status := "not_loaded"
      error_reason := none }

/-! ### src/services/recommendation_service.py and the /predict route -/

/-- The `weather_data` dictionary handed to `generate_recommendation`
(the "current" daily summary): each key may be absent, in which case
`dict.get` supplies the default written in the source. -/
structure WeatherDict where
  avg_temp : Option ℚ
  max_temp : Option ℚ
  humidity : Option ℚ
  rainfall : Option ℚ
deriving DecidableEq, Repr

/-- The recommendation record built by `generate_recommendation` and handed
to `save_recommendation` (fields relevant to the verified claims; the
`weather_conditions` snapshot and `created_at` timestamp are echoes of the
inputs and carry no logic). -/
structure Recommendation where
  user_id : String
  city : String
  start_date : ℤ
  end_date : ℤ
  predicted_price : ℚ
  confidence_score : ℚ
deriving DecidableEq, Repr

/-- Embeds `recommendation_service.generate_recommendation`: extract the weather
features with their defaults, call the price oracle, start tomorrow
adjusted by the temperature constraint, and end after the optimal rearing
duration. `today` stands for `date.today()` as a day ordinal. -/
def generate_recommendation (st : MLState) (current_month : ℕ) (today : ℤ)
    (city user_id : String) (weather_data : WeatherDict) : Recommendation :=
  let avg_temp := weather_data.avg_temp.getD 25
  let max_temp := weather_data.max_temp.getD 29
  let humidity := weather_data.humidity.getD 65
  let rainfall := weather_data.rainfall.getD 0
  let prediction :=
    predict_price st current_month city avg_temp (some humidity) (some max_temp) (some rainfall) none
  let start_date := apply_temperature_constraints (today + 1) avg_temp
  let duration_days := get_optimal_rearing_duration avg_temp
  let end_date := calculate_end_date start_date duration_days
  { user_id := user_id
    city := city
    start_date := start_date
    end_date := end_date
    predicted_price := prediction.predicted_price
    confidence_score := prediction.confidence_score }

/-- Embeds `recommendation_routes.generate_cocoon_recommendation` (the POST
/predict handler) after role checking: reject with a 503 detail when no
current weather is available, otherwise generate the recommendation,
append it to the persistence collection, and return it. The persisted
collection is modelled as the list of saved records. -/
def route_predict (st : MLState) (current_month : ℕ) (today : ℤ)
    (city user_id : String) (current_weather : Option WeatherDict)
    (db : List Recommendation) : Except String (Recommendation × List Recommendation) :=
  match current_weather with
  | none => Except.error "Could not fetch weather data"
  | some wd =>
    let recommendation := generate_recommendation st current_month today city user_id wd
    Except.ok (recommendation, db ++ [recommendation])

/-- Spec-side definition (§4.4 `delay_for_temperature`), for comparison
with the code's `apply_temperature_constraints`: the number of delay days
for a temperature. -/
def delay_for_temperature (t : ℚ) : ℤ :=
  if t < 20 then 3
  else if t > 28 then 2
  else 0

/-! ### src/services/weather_service.py -/

/-- One hourly sample of the upstream forecast: the calendar day the
timestamp falls on (as a day ordinal) and the possibly-null temperature,
rain and relative-humidity readings at that hour. -/
structure Sample where
  date : ℤ
  temp : Option ℚ
  rain : Option ℚ
  humidity : Option ℚ
deriving DecidableEq, Repr

/-- One entry of the daily forecast produced by
`WeatherService._calculate_daily_stats` / `_get_fallback_data`. -/
structure DailySummary where
  date : ℤ
  avg_temp : ℚ
  max_temp : ℚ
  min_temp : ℚ
  humidity : ℚ
  rainfall : ℚ
deriving DecidableEq, Repr

/-- The dictionary returned by `WeatherService.get_weather_data`:
the current-day summary (first forecast day, when any) and the whole
daily forecast. -/
structure WeatherData where
  current : Option DailySummary
  forecast : List DailySummary
deriving DecidableEq, Repr

/-- Geographic coordinates of a supported city. -/
structure Coord where
  latitude : ℚ
  longitude : ℚ
deriving DecidableEq, Repr

/-- The `WeatherService.city_coordinates` dictionary, as its `.get`
lookup function. -/
def city_coordinates_get (city : String) : Option Coord :=
  if city = "Bengaluru" then some ⟨12.9716, 77.5946⟩
  else if city = "Ramanagar" then some ⟨12.7209, 77.2799⟩
  else if city = "Siddlaghatta" then some ⟨13.3867, 77.8631⟩
  else none

/-- The coordinate resolution at the top of `get_weather_data`:
`coords = self.city_coordinates.get(city)`, and when the city is unknown,
`coords = self.city_coordinates["Bengaluru"]` (with only a printed
warning). -/
def get_weather_coords (city : String) : Coord :=
  match city_coordinates_get city with
  | some coords => coords
  | none => ⟨12.9716, 77.5946⟩

/-- The contiguous run of samples sharing the calendar day `d` at the head
of the list, and the remaining samples — the day-grouping step of
`_process_hourly_data`, which starts a new group whenever the date string
changes. -/
def span_date (d : ℤ) : List Sample → List Sample × List Sample
  | [] => ([], [])
  | s :: rest =>
    if s.date = d then
      let p := span_date d rest
      (s :: p.1, p.2)
    else ([], s :: rest)

theorem span_date_snd_length (d : ℤ) :
    ∀ l : List Sample, (span_date d l).2.length ≤ l.length := by
  intro l
  induction l with
  | nil => simp [span_date]
  | cons s rest ih =>
    by_cases hd : s.date = d
    · simpa [span_date, hd] using Nat.le_succ_of_le ih
    · simp [span_date, hd]

/-- Group a time-ordered sample list into contiguous same-day runs,
as the grouping loop of `_process_hourly_data` does. -/
def group_by_day : List Sample → List (ℤ × List Sample)
  | [] => []
  | s :: rest =>
    (s.date, s :: (span_date s.date rest).1) :: group_by_day (span_date s.date rest).2
termination_by l => l.length
decreasing_by
  simp only [List.length_cons]
  exact Nat.lt_succ_of_le (span_date_snd_length _ _)

/-- Embeds `statistics.mean` on a nonempty rational list. -/
def list_mean (l : List ℚ) : ℚ :=
  l.sum / l.length

/-- Embeds `WeatherService._calculate_daily_stats`: drop the nulls, then mean/max/
min temperature, mean humidity and rainfall total, each replaced by its
per-day default (25.0 / 28.0 / 22.0 / 65.0 / 0.0) when every sample of the
day is null. -/
def calculate_daily_stats (d : ℤ) (samples : List Sample) : DailySummary :=
  let temps := samples.filterMap (fun s => s.temp)
  let rains := samples.filterMap (fun s => s.rain)
  let humidities := samples.filterMap (fun s => s.humidity)
  { date := d
    avg_temp := if temps.isEmpty then 25 else list_mean temps
    max_temp := (temps.max?).getD 28
    min_temp := (temps.min?).getD 22
    humidity := if humidities.isEmpty then 65 else list_mean humidities
    rainfall := if rains.isEmpty then 0 else rains.sum }

/-- Embeds `WeatherService._process_hourly_data`: group the hourly series by day,
summarise each day, and report the first day as "current". -/
def process_hourly_data (samples : List Sample) : WeatherData :=
  let daily := (group_by_day samples).map (fun g => calculate_daily_stats g.1 g.2)
  { current := daily.head?, forecast := daily }

/-- Embeds `WeatherService._get_fallback_data`: one default-valued summary per
requested day, dated from today onward, with the constants written in the
source (avg 24.0, max 28.0, min 20.0, humidity 65.0, rainfall 0.0). The
Python code reads `forecast[0]` for "current"; the routes always request
`days ≥ 1`, where that equals `head?`. -/
def get_fallback_data (days : ℕ) (today : ℤ) : WeatherData :=
  let forecast := (List.range days).map (fun (i : ℕ) =>
    { date := today + (i : ℤ)
      avg_temp := 24
      max_temp := 28
      min_temp := 20
      humidity := 65
      rainfall := 0 : DailySummary })
  { current := forecast.head?, forecast := forecast }

/-- Embeds `WeatherService.get_weather_data`: resolve the city to coordinates
(silently defaulting to Bengaluru), fetch the hourly series for those
coordinates (`fetch` abstracts the Open-Meteo HTTP call; `none` is any
transport failure/exception), then process it; on failure return the
fallback structure instead of raising. -/
def get_weather_data (fetch : Coord → Option (List Sample)) (today : ℤ)
    (city : String) (days : ℕ) : WeatherData :=
  let coords := get_weather_coords city
  match fetch coords with
  | some samples => process_hourly_data samples
  | none => get_fallback_data days today

/-! ### src/services/recommendation_service.py : the 10-day window search -/

/-- One element of the `weather_forecasts` list handed to
`generate_10day_predictions`: the forecast day (as a day ordinal plus its
calendar month, standing for the parsed "YYYY-MM-DD" string) and the
optional weather fields read with `dict.get`. -/
structure DayWeather where
  date : ℤ
  month : ℕ
  avg_temp : Option ℚ
  max_temp : Option ℚ
  humidity : Option ℚ
  rainfall : Option ℚ
deriving DecidableEq, Repr

/-- One candidate in the 10-day prediction list. -/
structure DayPrediction where
  date : ℤ
  predicted_price : ℚ
  end_date : ℤ
  temperature : ℚ
  is_best_date : Bool
deriving DecidableEq, Repr

/-- The loop body of `generate_10day_predictions`: extract the day's
weather with defaults, call the oracle with that day's own month, compute
the rearing end date, and build the candidate with `is_best_date = False`. -/
def build_candidate (st : MLState) (current_month : ℕ) (city : String)
    (dw : DayWeather) : DayPrediction :=
  let avg_temp := dw.avg_temp.getD 25
  let max_temp := dw.max_temp.getD 29
  let humidity := dw.humidity.getD 65
  let rainfall := dw.rainfall.getD 0
  let pred := predict_price st current_month city avg_temp
    (some humidity) (some max_temp) (some rainfall) (some dw.month)
  { date := dw.date
    predicted_price := pred.predicted_price
    end_date := calculate_end_date dw.date (get_optimal_rearing_duration avg_temp)
    temperature := avg_temp
    is_best_date := false }

/-- Python's `max(xs, key=f)` semantics: fold keeping the current champion,
replacing it only on a strictly greater key, so the first occurrence of the
maximum wins ties. -/
def py_max {α : Type} (f : α → ℚ) : α → List α → α
  | cur, [] => cur
  | cur, x :: xs => if f cur < f x then py_max f x xs else py_max f cur xs

/-- Set the `is_best_date` flag of a candidate. -/
def set_is_best (p : DayPrediction) : DayPrediction :=
  { p with is_best_date := true }

/-- The in-place mutation `best_prediction["is_best_date"] = True`:
flag the list entry the champion aliases (its first occurrence). -/
def set_best_true (best : DayPrediction) : List DayPrediction → List DayPrediction
  | [] => []
  | p :: rest =>
    if p = best then set_is_best p :: rest
    else p :: set_best_true best rest

/-- Embeds `recommendation_service.generate_10day_predictions`: truncate the
forecast to the first 10 days, build one candidate per day, then mark the
candidate with the highest predicted price (`max` with first-occurrence
tie-break) as the best date. -/
def generate_10day_predictions (st : MLState) (current_month : ℕ)
    (city : String) (weather_forecasts : List DayWeather) : List DayPrediction :=
  let forecast_days := weather_forecasts.take 10
  let predictions := forecast_days.map (build_candidate st current_month city)
  match predictions with
  | [] => []
  | p :: ps => set_best_true (py_max (fun x => x.predicted_price) p ps) (p :: ps)

/-! ### Claims about the rule engine and the season mapping -/

/-- C6: for every temperature `t`, the start-date delay and rearing duration
follow the three temperature bands: `t < 20` gives delay 3 and duration 30;
`t > 28` gives delay 2 and duration 25; `20 ≤ t ≤ 28` (boundaries included)
gives delay 0 and duration 28. -/
theorem C6_temperature_bands (t : ℚ) (s : ℤ) :
    (t < 20 → apply_temperature_constraints s t = s + 3 ∧ get_optimal_rearing_duration t = 30)
    ∧ (t > 28 → apply_temperature_constraints s t = s + 2 ∧ get_optimal_rearing_duration t = 25)
    ∧ (20 ≤ t → t ≤ 28 → apply_temperature_constraints s t = s ∧ get_optimal_rearing_duration t = 28) := by
  refine ⟨fun h => ?_, fun h => ?_, fun h1 h2 => ?_⟩
  · simp [apply_temperature_constraints, get_optimal_rearing_duration,
      OPTIMAL_TEMP_MIN, MAX_REARING_DURATION, h]
  · have h' : ¬ t < OPTIMAL_TEMP_MIN := by
      simp only [OPTIMAL_TEMP_MIN]; linarith
    simp [apply_temperature_constraints, get_optimal_rearing_duration,
      OPTIMAL_TEMP_MAX, MIN_REARING_DURATION, h, h']
  · have hlo : ¬ t < OPTIMAL_TEMP_MIN := by
      simp only [OPTIMAL_TEMP_MIN]; linarith
    have hhi : ¬ t > OPTIMAL_TEMP_MAX := by
      simp only [OPTIMAL_TEMP_MAX]; linarith
    simp [apply_temperature_constraints, get_optimal_rearing_duration,
      OPTIMAL_REARING_DURATION, hlo, hhi]

/-- Witness for C6 at the concrete temperatures 19, 29, 20 and 28
(the last two exercising the inclusive boundaries). -/
theorem C6_temperature_bands_witness :
    (apply_temperature_constraints 0 19 = 0 + 3 ∧ get_optimal_rearing_duration 19 = 30)
    ∧ (apply_temperature_constraints 0 29 = 0 + 2 ∧ get_optimal_rearing_duration 29 = 25)
    ∧ (apply_temperature_constraints 0 20 = 0 ∧ get_optimal_rearing_duration 20 = 28)
    ∧ (apply_temperature_constraints 0 28 = 0 ∧ get_optimal_rearing_duration 28 = 28) :=
  ⟨(C6_temperature_bands 19 0).1 (by norm_num),
   (C6_temperature_bands 29 0).2.1 (by norm_num),
   (C6_temperature_bands 20 0).2.2 (by norm_num) (by norm_num),
   (C6_temperature_bands 28 0).2.2 (by norm_num) (by norm_num)⟩

/-- C7: the encoder's season mapping is total over months 1–12, always
returning one of the four labels, and the four month buckets partition
the year: Winter = {12,1,2}, Summer = {3,4,5}, Monsoon = {6,7,8,9},
PostMonsoon = {10,11}; each month falls in exactly one bucket. -/
theorem C7_season_partition (m : ℕ) (h1 : 1 ≤ m) (h2 : m ≤ 12) :
    (get_season m = "Winter" ∨ get_season m = "Summer"
      ∨ get_season m = "Monsoon" ∨ get_season m = "PostMonsoon")
    ∧ (get_season m = "Winter" ↔ (m = 12 ∨ m = 1 ∨ m = 2))
    ∧ (get_season m = "Summer" ↔ (m = 3 ∨ m = 4 ∨ m = 5))
    ∧ (get_season m = "Monsoon" ↔ (m = 6 ∨ m = 7 ∨ m = 8 ∨ m = 9))
    ∧ (get_season m = "PostMonsoon" ↔ (m = 10 ∨ m = 11)) := by
  interval_cases m <;> simp [get_season]

/-- Witness for C7 at month 7 (Monsoon). -/
theorem C7_season_partition_witness :
    get_season 7 = "Monsoon" :=
  (C7_season_partition 7 (by decide) (by decide)).2.2.2.1.mpr (by decide)

/-- C3: `predict_price` never raises: it is a total function whose result,
for every service state and input, is either a successful prediction with
the fixed confidence constant 0.85 and status "active", or a fallback with
price 450.0, confidence 0.0 and a non-active status; and every failure
inside encoding or inference (status "error") carries a machine-readable
reason. -/
theorem C3_oracle_never_raises (st : MLState) (current_month : ℕ) (city : String)
    (temperature : ℚ) (humidity max_temp rainfall : Option ℚ) (month : Option ℕ) :
    (((predict_price st current_month city temperature humidity max_temp rainfall month).model_status = "active"
        ∧ (predict_price st current_month city temperature humidity max_temp rainfall month).confidence_score = 0.85)
      ∨ ((predict_price st current_month city temperature humidity max_temp rainfall month).model_status ≠ "active"
        ∧ (predict_price st current_month city temperature humidity max_temp rainfall month).predicted_price = 450
        ∧ (predict_price st current_month city temperature humidity max_temp rainfall month).confidence_score = 0))
    ∧ ((predict_price st current_month city temperature humidity max_temp rainfall month).model_status = "error"
        → (predict_price st current_month city temperature humidity max_temp rainfall month).error_reason.isSome = true) := by
  unfold predict_price
  rcases st with ⟨loaded, mdl, lec, les⟩
  cases loaded <;> cases mdl <;> simp only
  case true.some =>
    cases lec <;> cases les <;> simp only
    case some.some cc sc =>
      rcases h1 : label_transform cc city with e1 | c1 <;> simp only [h1]
      case error => simp [fallback_response]
      case ok =>
        rcases h2 : label_transform sc (get_season ((month.getD current_month))) with e2 | c2
          <;> simp [h2, fallback_response]
    all_goals simp [fallback_response]
  all_goals simp

/-- Witness for C3's failure clause at a concrete loaded state whose city
encoder is missing: a status of "error" comes with a reason. -/
theorem C3_oracle_never_raises_witness :
    (predict_price ⟨true, some (fun _ => 475), none, none⟩ 4 "Bengaluru"
        24 none none none none).model_status = "error"
    ∧ (predict_price ⟨true, some (fun _ => 475), none, none⟩ 4 "Bengaluru"
        24 none none none none).error_reason.isSome = true :=
  ⟨rfl, (C3_oracle_never_raises ⟨true, some (fun _ => 475), none, none⟩ 4 "Bengaluru"
    24 none none none none).2 rfl⟩

/-- C9: every rearing window produced by the rules is valid by construction:
for every temperature the computed duration is one of 25, 28 or 30 days,
which lies inside the accepted band [25, 30], so pairing any start date with
the derived end date passes `validate_rearing_period`. -/
theorem C9_window_valid_by_construction (t : ℚ) (s : ℤ) :
    validate_rearing_period s (calculate_end_date s (get_optimal_rearing_duration t)) = true
    ∧ (get_optimal_rearing_duration t = 25 ∨ get_optimal_rearing_duration t = 28
        ∨ get_optimal_rearing_duration t = 30) := by
  unfold validate_rearing_period calculate_end_date get_optimal_rearing_duration
  unfold MIN_REARING_DURATION MAX_REARING_DURATION OPTIMAL_REARING_DURATION
  split
  · simp
  · split <;> simp

/-- C8: the generated recommendation starts tomorrow (today + 1) shifted by
the temperature delay computed from the day's average temperature, and ends
at the start date plus the temperature-derived rearing duration; in the
optimal band the delay is 0 and the duration 28. -/
theorem C8_recommendation_dates (st : MLState) (current_month : ℕ) (today : ℤ)
    (city user_id : String) (wd : WeatherDict) :
    (generate_recommendation st current_month today city user_id wd).start_date
      = today + 1 + delay_for_temperature (wd.avg_temp.getD 25)
    ∧ (generate_recommendation st current_month today city user_id wd).end_date
      = (generate_recommendation st current_month today city user_id wd).start_date
        + get_optimal_rearing_duration (wd.avg_temp.getD 25) := by
  unfold generate_recommendation delay_for_temperature apply_temperature_constraints
    calculate_end_date OPTIMAL_TEMP_MIN OPTIMAL_TEMP_MAX
  constructor
  · dsimp only
    split
    · ring
    · split
      · ring
      · ring
  · dsimp only

/-- C1 counterexample: with a fully loaded model whose city encoder knows
only Bengaluru, Ramanagar and Siddlaghatta, a /predict request for the
unknown city "Atlantis" does NOT fail: the oracle substitutes the fallback
price 450.0 (status "error" with an unseen-label reason), the request
succeeds, and the recommendation record IS written to persistence. -/
theorem C1_counterexample :
    route_predict
        ⟨true, some (fun _ => 500),
          some ["Bengaluru", "Ramanagar", "Siddlaghatta"],
          some ["Monsoon", "PostMonsoon", "Summer", "Winter"]⟩
        4 0 "Atlantis" "farmer1"
        (some ⟨some 24, some 28, some 65, some 0⟩) []
      = Except.ok (⟨"farmer1", "Atlantis", 1, 29, 450, 0⟩,
          [⟨"farmer1", "Atlantis", 1, 29, 450, 0⟩])
    ∧ (predict_price
        ⟨true, some (fun _ => 500),
          some ["Bengaluru", "Ramanagar", "Siddlaghatta"],
          some ["Monsoon", "PostMonsoon", "Summer", "Winter"]⟩
        4 "Atlantis" 24 (some 65) (some 28) (some 0) none).model_status = "error" := by
  constructor <;> rfl

/-- C1 amended: for every loaded state whose city encoder does not contain
the requested city, the /predict pipeline still succeeds: the encoding
failure is caught inside `predict_price` and converted to the fallback
(price 450.0, confidence 0.0, status "error" with a reason), and the
resulting recommendation — carrying the substituted fallback price — is
appended to persistence. No UnsupportedCategoryError reaches the caller. -/
theorem C1_unknown_city_falls_back (city_classes season_classes : List String)
    (f : List ℚ → ℚ) (current_month : ℕ) (today : ℤ) (city user_id : String)
    (wd : WeatherDict) (db : List Recommendation)
    (h : city ∉ city_classes) :
    route_predict ⟨true, some f, some city_classes, some season_classes⟩
        current_month today city user_id (some wd) db
      = Except.ok
          (generate_recommendation ⟨true, some f, some city_classes, some season_classes⟩
              current_month today city user_id wd,
            db ++ [generate_recommendation ⟨true, some f, some city_classes, some season_classes⟩
              current_month today city user_id wd])
    ∧ (generate_recommendation ⟨true, some f, some city_classes, some season_classes⟩
        current_month today city user_id wd).predicted_price = 450
    ∧ (generate_recommendation ⟨true, some f, some city_classes, some season_classes⟩
        current_month today city user_id wd).confidence_score = 0
    ∧ (predict_price ⟨true, some f, some city_classes, some season_classes⟩
        current_month city (wd.avg_temp.getD 25) (some (wd.humidity.getD 65))
        (some (wd.max_temp.getD 29)) (some (wd.rainfall.getD 0)) none).model_status = "error" := by
  have htrans : ∀ cs : List String, city ∉ cs →
      label_transform cs city
        = Except.error ("y contains previously unseen labels: " ++ city) := by
    intro cs
    induction cs with
    | nil => intro _; rfl
    | cons c rest ih =>
      intro hmem
      have hne : city ≠ c := fun hc => hmem (hc ▸ List.mem_cons_self c rest)
      have hrest : city ∉ rest := fun hr => hmem (List.mem_cons_of_mem c hr)
      simp [label_transform, hne, ih hrest, Except.map]
  have hpred : predict_price ⟨true, some f, some city_classes, some season_classes⟩
      current_month city (wd.avg_temp.getD 25) (some (wd.humidity.getD 65))
      (some (wd.max_temp.getD 29)) (some (wd.rainfall.getD 0)) none
      = fallback_response ("y contains previously unseen labels: " ++ city) := by
    unfold predict_price
    simp [htrans city_classes h]
  refine ⟨rfl, ?_, ?_, ?_⟩
  · unfold generate_recommendation
    simp only [hpred]
    rfl
  · unfold generate_recommendation
    simp only [hpred]
    rfl
  · rw [hpred]
    rfl

/-- Witness for C1 amended at the concrete city "Atlantis" and an explicit
loaded state. -/
theorem C1_unknown_city_falls_back_witness :
    (generate_recommendation
        ⟨true, some (fun _ => 500), some ["Bengaluru", "Ramanagar", "Siddlaghatta"],
          some ["Monsoon", "PostMonsoon", "Summer", "Winter"]⟩
        4 0 "Atlantis" "farmer1" ⟨some 24, some 28, some 65, some 0⟩).predicted_price = 450 :=
  (C1_unknown_city_falls_back ["Bengaluru", "Ramanagar", "Siddlaghatta"]
    ["Monsoon", "PostMonsoon", "Summer", "Winter"] (fun _ => 500) 4 0 "Atlantis" "farmer1"
    ⟨some 24, some 28, some 65, some 0⟩ [] (by decide)).2.1

/-- C10: for every city outside the supported-coordinates table, the
weather fetch silently substitutes Bengaluru's coordinates — it resolves to
exactly the coordinates used for "Bengaluru" — and therefore returns the
same forecast as a request for Bengaluru, for any fetch outcome; no error
is reported to the caller. -/
theorem C10_unknown_city_uses_bengaluru (fetch : Coord → Option (List Sample))
    (today : ℤ) (city : String) (days : ℕ)
    (h : city_coordinates_get city = none) :
    get_weather_coords city = get_weather_coords "Bengaluru"
    ∧ get_weather_data fetch today city days = get_weather_data fetch today "Bengaluru" days := by
  have hc : get_weather_coords city = get_weather_coords "Bengaluru" := by
    unfold get_weather_coords
    rw [h]
    rfl
  exact ⟨hc, by unfold get_weather_data; rw [hc]⟩

/-- Witness for C10 at the unsupported city "Atlantis". -/
theorem C10_unknown_city_uses_bengaluru_witness :
    city_coordinates_get "Atlantis" = none
    ∧ get_weather_coords "Atlantis" = get_weather_coords "Bengaluru" :=
  ⟨by decide,
    (C10_unknown_city_uses_bengaluru (fun _ => none) 0 "Atlantis" 16 (by decide)).1⟩

/-- C4 counterexample: when the upstream fetch fails entirely, the first
substituted summary has avg_temp 24.0 and min_temp 20.0 — not the per-day
defaults 25.0 and 22.0 the claim states. -/
theorem C4_counterexample :
    ((get_weather_data (fun _ => none) 0 "Bengaluru" 10).forecast.map
        (fun s => s.avg_temp)).head? = some 24
    ∧ ((get_weather_data (fun _ => none) 0 "Bengaluru" 10).forecast.map
        (fun s => s.min_temp)).head? = some 20
    ∧ (24 : ℚ) ≠ 25 ∧ (20 : ℚ) ≠ 22 := by
  refine ⟨rfl, rfl, by norm_num, by norm_num⟩

/-- C4 amended: if the upstream weather fetch fails entirely, the caller
receives a full horizon of default-valued summaries — one per requested
day, none dropped — and the request does not fail; each summary carries the
fallback constants avg_temp 24.0, max_temp 28.0, min_temp 20.0,
humidity 65.0, rainfall 0.0 (which differ from the per-day aggregation
defaults 25.0 / 28.0 / 22.0 / 65.0 / 0.0 of `calculate_daily_stats`). -/
theorem C4_fetch_failure_full_default_horizon (days : ℕ) (today : ℤ) (city : String) :
    (get_weather_data (fun _ => none) today city days).forecast.length = days
    ∧ ∀ s ∈ (get_weather_data (fun _ => none) today city days).forecast,
        s.avg_temp = 24 ∧ s.max_temp = 28 ∧ s.min_temp = 20
          ∧ s.humidity = 65 ∧ s.rainfall = 0 := by
  unfold get_weather_data get_fallback_data
  constructor
  · rw [List.length_map, List.length_range]
  · intro s hs
    simp only [List.mem_map, List.mem_range] at hs
    obtain ⟨i, _, rfl⟩ := hs
    exact ⟨rfl, rfl, rfl, rfl, rfl⟩

/-! ### Properties of the Python `max` fold and the best-date marking -/

theorem py_max_nil {α : Type} (f : α → ℚ) (cur : α) : py_max f cur [] = cur := rfl

theorem py_max_cons {α : Type} (f : α → ℚ) (cur x : α) (xs : List α) :
    py_max f cur (x :: xs) = if f cur < f x then py_max f x xs else py_max f cur xs := rfl

/-- Every element's key is at most the champion's key. -/
theorem py_max_le {α : Type} (f : α → ℚ) (cur : α) (xs : List α) :
    ∀ y ∈ cur :: xs, f y ≤ f (py_max f cur xs) := by
  induction xs generalizing cur with
  | nil =>
    intro y hy
    rw [List.mem_singleton] at hy
    subst hy
    rw [py_max_nil]
  | cons x rest ih =>
    intro y hy
    rw [py_max_cons]
    by_cases h : f cur < f x
    · rw [if_pos h]
      rcases List.mem_cons.mp hy with rfl | hy'
      · exact le_of_lt (lt_of_lt_of_le h (ih x x (List.mem_cons_self x rest)))
      · exact ih x y hy'
    · rw [if_neg h]
      rcases List.mem_cons.mp hy with heq | hy'
      · rw [heq]
        exact ih cur cur (List.mem_cons_self cur rest)
      · rcases List.mem_cons.mp hy' with heq | hy''
        · rw [heq]
          exact le_trans (not_lt.mp h) (ih cur cur (List.mem_cons_self cur rest))
        · exact ih cur y (List.mem_cons_of_mem cur hy'')

/-- The champion is the first occurrence of the maximum: the list splits
around it and everything before it has a strictly smaller key. -/
theorem py_max_first {α : Type} (f : α → ℚ) (cur : α) (xs : List α) :
    ∃ l1 l2, cur :: xs = l1 ++ py_max f cur xs :: l2
      ∧ ∀ y ∈ l1, f y < f (py_max f cur xs) := by
  induction xs generalizing cur with
  | nil => exact ⟨[], [], by rw [py_max_nil]; rfl, by simp⟩
  | cons x rest ih =>
    by_cases h : f cur < f x
    · simp only [py_max_cons, if_pos h]
      obtain ⟨l1, l2, heq, hlt⟩ := ih x
      refine ⟨cur :: l1, l2, ?_, ?_⟩
      · rw [List.cons_append, ← heq]
      · intro y hy
        rcases List.mem_cons.mp hy with rfl | hy'
        · exact lt_of_lt_of_le h (py_max_le f x rest x (List.mem_cons_self x rest))
        · exact hlt y hy'
    · simp only [py_max_cons, if_neg h]
      obtain ⟨l1, l2, heq, hlt⟩ := ih cur
      cases l1 with
      | nil =>
        rw [List.nil_append] at heq
        injection heq with h1 h2
        refine ⟨[], x :: rest, ?_, by simp⟩
        rw [List.nil_append, ← h1]
      | cons a l1' =>
        rw [List.cons_append] at heq
        injection heq with h1 h2
        subst h1
        generalize hm : py_max f cur rest = m at *
        refine ⟨cur :: x :: l1', l2, ?_, ?_⟩
        · rw [h2]
          rfl
        · intro y hy
          have hcur : f cur < f m := hlt cur (List.mem_cons_self cur l1')
          rcases List.mem_cons.mp hy with heq2 | hy'
          · rw [heq2]
            exact hcur
          · rcases List.mem_cons.mp hy' with heq2 | hy''
            · rw [heq2]
              exact lt_of_le_of_lt (not_lt.mp h) hcur
            · exact hlt y (List.mem_cons_of_mem cur hy'')

theorem set_best_true_nil (b : DayPrediction) : set_best_true b [] = [] := rfl

theorem set_best_true_cons (b p : DayPrediction) (rest : List DayPrediction) :
    set_best_true b (p :: rest)
      = if p = b then set_is_best p :: rest else p :: set_best_true b rest := rfl

/-- Marking the champion only touches the first occurrence: if nothing in
the prefix equals it, the flag lands exactly on the split point. -/
theorem set_best_true_append (b : DayPrediction) (l1 l2 : List DayPrediction)
    (h : ∀ p ∈ l1, p ≠ b) :
    set_best_true b (l1 ++ b :: l2) = l1 ++ set_is_best b :: l2 := by
  induction l1 with
  | nil =>
    rw [List.nil_append, List.nil_append, set_best_true_cons, if_pos rfl]
  | cons a l1' ih =>
    have ha : a ≠ b := h a (List.mem_cons_self a l1')
    rw [List.cons_append, set_best_true_cons, if_neg ha,
      ih (fun p hp => h p (List.mem_cons_of_mem a hp)), List.cons_append]

theorem set_best_true_length (b : DayPrediction) (l : List DayPrediction) :
    (set_best_true b l).length = l.length := by
  induction l with
  | nil => rfl
  | cons p rest ih =>
    rw [set_best_true_cons]
    by_cases hp : p = b
    · rw [if_pos hp]
      rfl
    · rw [if_neg hp, List.length_cons, List.length_cons, ih]

theorem set_best_true_map_date (b : DayPrediction) (l : List DayPrediction) :
    (set_best_true b l).map (fun p => p.date) = l.map (fun p => p.date) := by
  induction l with
  | nil => rfl
  | cons p rest ih =>
    rw [set_best_true_cons]
    by_cases hp : p = b
    · rw [if_pos hp]
      rfl
    · rw [if_neg hp, List.map_cons, List.map_cons, ih]

/-- Core property of the best-date marking: on a candidate list whose flags
all start false, flagging the Python-max champion yields exactly one
flagged element; the list splits around it, its price dominates every
candidate, and everything strictly before it has a strictly smaller price
(first-occurrence tie-break). -/
theorem mark_best_spec (b0 : DayPrediction) (bs : List DayPrediction)
    (hall : ∀ p ∈ b0 :: bs, p.is_best_date = false) :
    ((set_best_true (py_max (fun x => x.predicted_price) b0 bs) (b0 :: bs)).filter
        (fun p => p.is_best_date)).length = 1
    ∧ ∃ l1 b l2,
        set_best_true (py_max (fun x => x.predicted_price) b0 bs) (b0 :: bs) = l1 ++ b :: l2
        ∧ b.is_best_date = true
        ∧ (∀ p ∈ set_best_true (py_max (fun x => x.predicted_price) b0 bs) (b0 :: bs),
            p.predicted_price ≤ b.predicted_price)
        ∧ (∀ p ∈ l1, p.predicted_price < b.predicted_price) := by
  obtain ⟨l1, l2, heq, hlt⟩ := py_max_first (fun x => x.predicted_price) b0 bs
  have hle := py_max_le (fun x => x.predicted_price) b0 bs
  have hne : ∀ p ∈ l1, p ≠ py_max (fun x => x.predicted_price) b0 bs := by
    intro p hp hpm
    have hplt := hlt p hp
    rw [hpm] at hplt
    exact lt_irrefl _ hplt
  have hset : set_best_true (py_max (fun x => x.predicted_price) b0 bs) (b0 :: bs)
      = l1 ++ set_is_best (py_max (fun x => x.predicted_price) b0 bs) :: l2 := by
    rw [heq]
    exact set_best_true_append _ l1 l2 hne
  have hmem_l1 : ∀ p ∈ l1, p ∈ b0 :: bs := by
    intro p hp
    rw [heq]
    exact List.mem_append_left _ hp
  have hmem_l2 : ∀ p ∈ l2, p ∈ b0 :: bs := by
    intro p hp
    rw [heq]
    exact List.mem_append_right _ (List.mem_cons_of_mem _ hp)
  have hfl1 : l1.filter (fun p => p.is_best_date) = [] := by
    apply List.filter_eq_nil_iff.mpr
    intro p hp
    simp [hall p (hmem_l1 p hp)]
  have hfl2 : l2.filter (fun p => p.is_best_date) = [] := by
    apply List.filter_eq_nil_iff.mpr
    intro p hp
    simp [hall p (hmem_l2 p hp)]
  constructor
  · rw [hset, List.filter_append, hfl1, List.nil_append, List.filter_cons]
    simp [set_is_best, hfl2]
  · refine ⟨l1, set_is_best (py_max (fun x => x.predicted_price) b0 bs), l2, hset, rfl, ?_, ?_⟩
    · intro p hp
      rw [hset] at hp
      rcases List.mem_append.mp hp with hp1 | hp2
      · exact hle p (hmem_l1 p hp1)
      · rcases List.mem_cons.mp hp2 with heq2 | hp3
        · rw [heq2]
        · exact hle p (hmem_l2 p hp3)
    · intro p hp
      exact hlt p hp

/-- C2: on every nonempty forecast, the window search marks exactly one
candidate best; its predicted price equals the maximum over all candidates,
and among ties for the maximum the first in chronological order (first
occurrence in the list) is the one marked: every candidate strictly before
the marked one has a strictly smaller price. -/
theorem C2_unique_best_first_max (st : MLState) (current_month : ℕ)
    (city : String) (ws : List DayWeather) (h : ws ≠ []) :
    ((generate_10day_predictions st current_month city ws).filter
        (fun p => p.is_best_date)).length = 1
    ∧ ∃ l1 b l2,
        generate_10day_predictions st current_month city ws = l1 ++ b :: l2
        ∧ b.is_best_date = true
        ∧ (∀ p ∈ generate_10day_predictions st current_month city ws,
            p.predicted_price ≤ b.predicted_price)
        ∧ (∀ p ∈ l1, p.predicted_price < b.predicted_price) := by
  obtain ⟨dw, rest, rfl⟩ := List.exists_cons_of_ne_nil h
  have hgen : generate_10day_predictions st current_month city (dw :: rest)
      = set_best_true
          (py_max (fun x => x.predicted_price) (build_candidate st current_month city dw)
            ((rest.take 9).map (build_candidate st current_month city)))
          (build_candidate st current_month city dw
            :: (rest.take 9).map (build_candidate st current_month city)) := rfl
  rw [hgen]
  apply mark_best_spec
  intro p hp
  rcases List.mem_cons.mp hp with heq2 | hp'
  · rw [heq2]
    rfl
  · obtain ⟨dw', _, hpe⟩ := List.mem_map.mp hp'
    rw [← hpe]
    rfl

/-- Witness for C2 on a concrete two-day forecast (model not loaded, so
both candidates carry the fallback price and the tie goes to day one). -/
theorem C2_unique_best_first_max_witness :
    ([(⟨0, 4, none, none, none, none⟩ : DayWeather), ⟨1, 4, none, none, none, none⟩]
        ≠ ([] : List DayWeather))
    ∧ ((generate_10day_predictions ⟨false, none, none, none⟩ 4 "Bengaluru"
        [⟨0, 4, none, none, none, none⟩, ⟨1, 4, none, none, none, none⟩]).filter
          (fun p => p.is_best_date)).length = 1 :=
  ⟨by decide,
    (C2_unique_best_first_max ⟨false, none, none, none⟩ 4 "Bengaluru"
      [⟨0, 4, none, none, none, none⟩, ⟨1, 4, none, none, none, none⟩] (by decide)).1⟩

/-- C5 counterexample: an 11-day forecast yields only 10 candidates — the
search truncates to the first 10 days, so the output length differs from
the input length. -/
theorem C5_counterexample :
    ((List.range 11).map
        (fun (i : ℕ) => (⟨(i : ℤ), 4, none, none, none, none⟩ : DayWeather))).length = 11
    ∧ (generate_10day_predictions ⟨false, none, none, none⟩ 4 "Bengaluru"
        ((List.range 11).map
          (fun (i : ℕ) => ⟨(i : ℤ), 4, none, none, none, none⟩))).length = 10
    ∧ (10 : ℕ) ≠ 11 := by
  refine ⟨rfl, ?_, by decide⟩
  rfl

/-- C5 amended: the window search keeps the first ten days of the input
(truncation at 10 is the only exception to "same length"): the output has
length `min (input length) 10`, and its candidates carry exactly the dates
of the first `min (input length) 10` input days in the same order — no day
among those is dropped or reordered, regardless of any prediction falling
back. -/
theorem C5_first_ten_days_in_order (st : MLState) (current_month : ℕ)
    (city : String) (ws : List DayWeather) :
    (generate_10day_predictions st current_month city ws).length = min ws.length 10
    ∧ (generate_10day_predictions st current_month city ws).map (fun p => p.date)
        = (ws.take 10).map (fun dw => dw.date) := by
  cases ws with
  | nil =>
    exact ⟨rfl, rfl⟩
  | cons dw rest =>
    have hgen : generate_10day_predictions st current_month city (dw :: rest)
        = set_best_true
            (py_max (fun x => x.predicted_price) (build_candidate st current_month city dw)
              ((rest.take 9).map (build_candidate st current_month city)))
            (build_candidate st current_month city dw
              :: (rest.take 9).map (build_candidate st current_month city)) := rfl
    have hbuild : (dw :: rest).take 10
        = dw :: rest.take 9 := rfl
    constructor
    · rw [hgen, set_best_true_length, List.length_cons, List.length_map,
        List.length_take, List.length_cons]
      omega
    · rw [hgen, set_best_true_map_date]
      have hmapmap : (build_candidate st current_month city dw
            :: (rest.take 9).map (build_candidate st current_month city))
          = ((dw :: rest.take 9).map (build_candidate st current_month city)) := rfl
      have hfun : ((fun p : DayPrediction => p.date)
            ∘ (build_candidate st current_month city))
          = (fun dw : DayWeather => dw.date) := rfl
      rw [hmapmap, List.map_map, hfun, ← hbuild]

end Cocoon
